import Mathlib

/-!
Verification development for the GiftSubTracker repository.

The definitions below are a shallow embedding of the repository's core:
the webhook signature check (`twitch.py`), the OAuth token helpers
(`twitch.py`), the ledger upsert (`gsheets.py`), the per-tenant sheet
registry (`googlesheets.py`), the event ingestion handler
(`webhook_handler.py`) and the webhook route (`main.py`).  Machine
integers are `Nat`/`Int` with explicit `% 2 ^ 32` where 32-bit overflow
matters; Python exceptions are `Except` values; the external HTTP and
Sheets services are explicit oracle arguments.
-/

namespace GiftSub

/-! ### SHA-256 and HMAC-SHA256

`twitch.py` computes webhook signatures through Python's `hashlib` and
`hmac` libraries.  Those externals are embedded concretely: a full
FIPS-180-4 SHA-256 over byte lists (`Nat` values below 256), and the
RFC-2104 HMAC construction over it, so that concrete signatures evaluate
inside the kernel. -/

/-- Addition modulo `2 ^ 32`. -/
def add32 (a b : Nat) : Nat := (a + b) % 4294967296

/-- Right rotation of a 32-bit word by `n` places. -/
def rotr32 (n x : Nat) : Nat := (x / 2 ^ n + x % 2 ^ n * 2 ^ (32 - n)) % 4294967296

/-- Logical right shift of a 32-bit word. -/
def shr32 (n x : Nat) : Nat := x / 2 ^ n

/-- Bitwise complement of a 32-bit word. -/
def not32 (x : Nat) : Nat := Nat.xor x 4294967295

/-- SHA-256 `Ch` function. -/
def chFn (e f g : Nat) : Nat := Nat.xor (Nat.land e f) (Nat.land (not32 e) g)

/-- SHA-256 `Maj` function. -/
def majFn (a b c : Nat) : Nat :=
  Nat.xor (Nat.xor (Nat.land a b) (Nat.land a c)) (Nat.land b c)

/-- SHA-256 big sigma-0. -/
def sigmaBig0 (x : Nat) : Nat := Nat.xor (Nat.xor (rotr32 2 x) (rotr32 13 x)) (rotr32 22 x)

/-- SHA-256 big sigma-1. -/
def sigmaBig1 (x : Nat) : Nat := Nat.xor (Nat.xor (rotr32 6 x) (rotr32 11 x)) (rotr32 25 x)

/-- SHA-256 small sigma-0. -/
def sigmaSm0 (x : Nat) : Nat := Nat.xor (Nat.xor (rotr32 7 x) (rotr32 18 x)) (shr32 3 x)

/-- SHA-256 small sigma-1. -/
def sigmaSm1 (x : Nat) : Nat := Nat.xor (Nat.xor (rotr32 17 x) (rotr32 19 x)) (shr32 10 x)

/-- The 64 SHA-256 round constants. -/
def K256 : List Nat :=
  [1116352408, 1899447441, 3049323471, 3921009573, 961987163,
   1508970993, 2453635748, 2870763221, 3624381080, 310598401,
   607225278, 1426881987, 1925078388, 2162078206, 2614888103,
   3248222580, 3835390401, 4022224774, 264347078, 604807628,
   770255983, 1249150122, 1555081692, 1996064986, 2554220882,
   2821834349, 2952996808, 3210313671, 3336571891, 3584528711,
   113926993, 338241895, 666307205, 773529912, 1294757372,
   1396182291, 1695183700, 1986661051, 2177026350, 2456956037,
   2730485921, 2820302411, 3259730800, 3345764771, 3516065817,
   3600352804, 4094571909, 275423344, 430227734, 506948616,
   659060556, 883997877, 958139571, 1322822218, 1537002063,
   1747873779, 1955562222, 2024104815, 2227730452, 2361852424,
   2428436474, 2756734187, 3204031479, 3329325298]

/-- The SHA-256 initial hash state. -/
def H256 : List Nat :=
  [1779033703, 3144134277, 1013904242, 2773480762,
   1359893119, 2600822924, 528734635, 1541459225]

/-- Big-endian byte rendering of `n` on `k` bytes. -/
def natToBytesBE : Nat → Nat → List Nat
  | 0, _ => []
  | k + 1, n => natToBytesBE k (n / 256) ++ [n % 256]

/-- Group bytes into big-endian 32-bit words, four bytes per word. -/
def bytesToWords : List Nat → List Nat
  | b0 :: b1 :: b2 :: b3 :: rest =>
      (((b0 * 256 + b1) * 256 + b2) * 256 + b3) :: bytesToWords rest
  | _ => []

/-- SHA-256 message padding: append `0x80`, zero fill, and the 64-bit
big-endian bit length, reaching a multiple of 64 bytes. -/
def padMsg (msg : List Nat) : List Nat :=
  msg ++ 128 :: List.replicate ((119 - msg.length % 64) % 64) 0
      ++ natToBytesBE 8 (msg.length * 8)

/-- Plain function iteration. -/
def iterN (f : α → α) : Nat → α → α
  | 0, a => a
  | n + 1, a => iterN f n (f a)

/-- One step of message-schedule extension: append the next word. -/
def schedStep (ws : List Nat) : List Nat :=
  let n := ws.length
  ws ++ [add32 (add32 (sigmaSm1 (ws.getD (n - 2) 0)) (ws.getD (n - 7) 0))
              (add32 (sigmaSm0 (ws.getD (n - 15) 0)) (ws.getD (n - 16) 0))]

/-- Extend the 16 block words to the full 64-entry schedule. -/
def schedule (ws : List Nat) : List Nat := iterN schedStep 48 ws

/-- One SHA-256 compression round on the eight working words. -/
def compressRound : List Nat → Nat × Nat → List Nat
  | [a, b, c, d, e, f, g, h], (k, w) =>
      let t1 := (((h + sigmaBig1 e) + chFn e f g + k + w) % 4294967296)
      let t2 := ((sigmaBig0 a + majFn a b c) % 4294967296)
      [(t1 + t2) % 4294967296, a, b, c, (d + t1) % 4294967296, e, f, g]
  | st, _ => st

/-- Process one 64-byte block into the running hash state. -/
def processBlock (h : List Nat) (block : List Nat) : List Nat :=
  let ws := schedule (bytesToWords block)
  let st := (List.zip K256 ws).foldl compressRound h
  List.zipWith add32 h st

/-- Big-endian bytes of a 32-bit word. -/
def wordBytes (w : Nat) : List Nat :=
  [w / 16777216 % 256, w / 65536 % 256, w / 256 % 256, w % 256]

/-- Fold `processBlock` over `n` consecutive 64-byte blocks of `l`. -/
def foldBlocks : Nat → List Nat → List Nat → List Nat
  | 0, h, _ => h
  | n + 1, h, l => foldBlocks n (processBlock h (l.take 64)) (l.drop 64)

/-- SHA-256 of a byte list, as the 32 digest bytes. -/
def sha256 (msg : List Nat) : List Nat :=
  let padded := padMsg msg
  (foldBlocks (padded.length / 64) H256 padded).flatMap wordBytes

/-- HMAC-SHA256 (RFC 2104) of a message under a key, as 32 digest bytes.
This is what Python's `hmac.new(key, msg, hashlib.sha256)` computes. -/
def hmacSha256 (key msg : List Nat) : List Nat :=
  let k1 := if 64 < key.length then sha256 key else key
  let k2 := k1 ++ List.replicate (64 - k1.length) 0
  sha256 (k2.map (fun b => Nat.xor b 92) ++
    sha256 (k2.map (fun b => Nat.xor b 54) ++ msg))

/-- Lower-case hex digit for a value below 16. -/
def hexDigit (n : Nat) : Char :=
  if n < 10 then Char.ofNat (48 + n) else Char.ofNat (87 + n)

/-- Two-character lower-case hex rendering of one byte. -/
def hexByte (b : Nat) : List Char := [hexDigit (b / 16), hexDigit (b % 16)]

/-- Lower-case hex string of a byte list, as `hexdigest()` renders it. -/
def hexStr (bs : List Nat) : String := String.mk (bs.flatMap hexByte)

/-- UTF-8 encoding of one character, as Python's `bytes(s, "utf-8")`. -/
def utf8Char (c : Char) : List Nat :=
  let n := c.toNat
  if n < 128 then [n]
  else if n < 2048 then [192 + n / 64, 128 + n % 64]
  else if n < 65536 then [224 + n / 4096, 128 + n / 64 % 64, 128 + n % 64]
  else [240 + n / 262144, 128 + n / 4096 % 64, 128 + n / 64 % 64, 128 + n % 64]

/-- UTF-8 bytes of a string. -/
def strBytes (s : String) : List Nat := s.data.flatMap utf8Char

/-! ### Decimal cells

`gsheets.py` stores numbers in the tabular store and reads them back with
Python's `int(...)`; written values arrive as Python `int`s and come back
as their decimal renderings.  `natStr`/`intStr` model the rendering,
`pyInt` models `int(...)` on a cell (with `none` for a raised
`ValueError`). -/

/-- Character of a decimal digit value. -/
def digitCh (d : Nat) : Char := Char.ofNat (48 + d)

/-- Value of a decimal digit character, `none` on any other character. -/
def digitVal (c : Char) : Option Nat :=
  if 48 ≤ c.toNat ∧ c.toNat ≤ 57 then some (c.toNat - 48) else none

/-- Accumulating decimal parse of a character list. -/
def digitsVal : List Char → Nat → Option Nat
  | [], acc => some acc
  | c :: cs, acc =>
      match digitVal c with
      | none => none
      | some d => digitsVal cs (acc * 10 + d)

/-- Little-endian base-10 digits with explicit fuel, so that concrete
renderings reduce inside the kernel. -/
def natDigitsAux : Nat → Nat → List Nat
  | 0, _ => []
  | _ + 1, 0 => []
  | fuel + 1, n + 1 => ((n + 1) % 10) :: natDigitsAux fuel ((n + 1) / 10)

/-- Little-endian base-10 digits of a natural number. -/
def natDigits (n : Nat) : List Nat := natDigitsAux n n

/-- Decimal rendering of a natural number, as Python's `str`. -/
def natStr (n : Nat) : String :=
  if n = 0 then "0" else String.mk (((natDigits n).reverse).map digitCh)

/-- Decimal rendering of an integer, as Python's `str`. -/
def intStr (k : Int) : String :=
  if k < 0 then "-" ++ natStr (-k).toNat else natStr k.toNat

/-- Python's `int(...)` applied to a cell string: an optional minus sign
followed by at least one digit; `none` models a raised `ValueError`. -/
def pyInt (s : String) : Option Int :=
  match s.data with
  | [] => none
  | c :: cs =>
      if c = '-' then
        if cs = [] then none else (digitsVal cs 0).map (fun n => -(n : Int))
      else (digitsVal (c :: cs) 0).map (fun n => (n : Int))

/-! ### twitch.py: HTTP layer, token helpers and webhook verification -/

/-- Python exception kinds raised along the embedded code paths. -/
inductive PyErr
  | typeError
  | attributeError
  | keyError
  | indexError
  | valueError
  | nameError
  deriving DecidableEq

/-- Equality of `Except` results is decidable componentwise, so concrete
runs evaluate inside the kernel. -/
instance {e : Type} {a : Type} [DecidableEq e] [DecidableEq a] : DecidableEq (Except e a) := fun x y =>
  match x, y with
  | .error u, .error v =>
      if h : u = v then .isTrue (h ▸ rfl) else .isFalse (fun hh => by cases hh; exact h rfl)
  | .ok u, .ok v =>
      if h : u = v then .isTrue (h ▸ rfl) else .isFalse (fun hh => by cases hh; exact h rfl)
  | .error _, .ok _ => .isFalse (fun hh => by cases hh)
  | .ok _, .error _ => .isFalse (fun hh => by cases hh)

/-- An HTTP response as the Twitch client observes it: its status code. -/
structure HResp where
  status : Nat
  deriving DecidableEq

/-- Model of `Twitch.make_request`: a single attempt through the HTTP service.  A
`requests`-level failure (oracle `none`) or an error status (for which
`raise_for_status` raises) is caught, logged, and turned into the
absent-response sentinel `None`. -/
def makeRequest (oracle : Option HResp) : Option HResp :=
  match oracle with
  | none => none
  | some r => if 400 ≤ r.status then none else some r

/-- Model of `Twitch.is_access_token_valid`: dereferences
`make_request(...).status_code` without checking for the `None`
sentinel, so an absent response raises `AttributeError`; otherwise the
status is compared to 200. -/
def isAccessTokenValid (oracle : Option HResp) : Except PyErr Bool :=
  match makeRequest oracle with
  | none => .error .attributeError
  | some r => .ok (r.status == 200)

/-- The mutable fields of a `Twitch` client instance. -/
structure TwitchState where
  authCode : Option String
  userAccessToken : Option String
  appAccessToken : String
  broadcasterId : Option String
  deriving DecidableEq

/-- Model of `Twitch.set_user_access_token_if_valid`: validates the token, stores
it only when validation returned `True`, and returns the validation
result; an exception from validation propagates with the state
unchanged. -/
def setUserAccessTokenIfValid (oracle : Option HResp) (st : TwitchState)
    (token : String) : Except PyErr (Bool × TwitchState) :=
  match isAccessTokenValid oracle with
  | .error e => .error e
  | .ok b =>
      .ok (b, { st with userAccessToken := if b then some token else st.userAccessToken })

/-- A gifted-subscription event payload, as `handle_webhook` reads it
out of `data["event"]`. -/
structure GiftEvent where
  userId : String
  userName : String
  total : Int

/-- The decoded JSON body of a webhook delivery: an optional
`"challenge"` field and an optional `"event"` field. -/
structure Payload where
  challenge : Option String
  event : Option GiftEvent

/-- An inbound POST to `/webhook` as the route and
`TwitchHandler.is_valid_notification` observe it: the three Twitch
message headers (`headers.get` yields `None` when absent), the raw body
text, and the framework-parsed JSON body. -/
structure WebhookRequest where
  messageId : Option String
  timestamp : Option String
  signature : Option String
  body : String
  json : Payload

/-- Python's `message_id + timestamp + body` concatenation inside
`compute_signature`: raises `TypeError` when a header was `None`. -/
def concatMessage : Option String → Option String → String → Except PyErr String
  | some i, some t, b => .ok (i ++ t ++ b)
  | _, _, _ => .error .typeError

/-- Model of `TwitchHandler.compute_signature`: HMAC-SHA256 of
`message_id + timestamp + body` under the shared secret, hex-encoded and
prefixed with `"sha256="`. -/
def computeSignature (secret : String) (r : WebhookRequest) : Except PyErr String :=
  (concatMessage r.messageId r.timestamp r.body).map
    (fun m => "sha256=" ++ hexStr (hmacSha256 (strBytes secret) (strBytes m)))

/-- Model of `TwitchHandler.is_valid_notification`: Python `==` between the
provided signature header and the computed signature (a missing header
compares `None == str`, which is `False`). -/
def isValidNotification (secret : String) (r : WebhookRequest) : Except PyErr Bool :=
  (computeSignature secret r).map
    (fun c =>
      match r.signature with
      | some p => p == c
      | none => false)

/-! ### gsheets.py: the ledger store adapter

A sheet is its 2-D grid of cell strings, row 1 first; a provisioned
ledger's header row is simply its first grid row, and `get_user_row`
scans every grid row, the header included, exactly as the source
enumerates the full `values` response. -/

/-- A sheet's cell grid. -/
abbrev Grid := List (List String)

/-- Scan for `GoogleSheets.get_user_row` from 1-based index `i + 1`:
first row whose first cell equals the key; `row[0]` on an empty row
raises `IndexError`. -/
def getUserRowAux : Grid → String → Nat → Except PyErr (Option Nat)
  | [], _, _ => .ok none
  | row :: rest, u, i =>
      match row with
      | [] => .error .indexError
      | c :: _ => if c = u then .ok (some (i + 1)) else getUserRowAux rest u (i + 1)

/-- Model of `GoogleSheets.get_user_row`: 1-based row number of the user's row,
`none` when the key appears in no row. -/
def getUserRow (grid : Grid) (u : String) : Except PyErr (Option Nat) :=
  getUserRowAux grid u 0

/-- Model of `GoogleSheets.append_or_update_row`: appends
`[user_id, user_name, gifted_subs, rewards_given]` when the key is in no
row; otherwise re-reads the matched row, adds the supplied
`gifted_subs` and `rewards_given` onto the stored ones, and overwrites
cells A–D of that row. -/
def appendOrUpdateRow (grid : Grid) (userId userName : String)
    (giftedSubs rewardsGiven : Int) : Except PyErr Grid := do
  let rowOpt ← getUserRow grid userId
  match rowOpt with
  | none =>
      pure (grid ++ [[userId, userName, intStr giftedSubs, intStr rewardsGiven]])
  | some rowN =>
      match grid[rowN - 1]? with
      | none => .error .indexError
      | some row =>
          if row = [] then
            pure (grid.set (rowN - 1)
              [userId, userName, intStr giftedSubs, intStr rewardsGiven])
          else
            match row[2]? with
            | none => .error .keyError
            | some gs =>
                match pyInt gs with
                | none => .error .valueError
                | some g0 =>
                    match row[3]? with
                    | none => .error .keyError
                    | some rg =>
                        match pyInt rg with
                        | none => .error .valueError
                        | some r0 =>
                            pure (grid.set (rowN - 1)
                              ([userId, userName, intStr (giftedSubs + g0),
                                  intStr (rewardsGiven + r0)] ++ row.drop 4))

/-- The `/reward` route body in `main.py`: looks the user's row up,
reads cells A–D, increments `rewards_given` by one and rewrites the
row; an absent user leaves `rewards_given` unbound and the final
`jsonify` raises `NameError`. -/
def incrementRewards (grid : Grid) (userId : String) : Except PyErr Grid := do
  let rowOpt ← getUserRow grid userId
  match rowOpt with
  | none => .error .nameError
  | some rowN =>
      match grid[rowN - 1]? with
      | none => .error .indexError
      | some row =>
          if row = [] then .error .nameError
          else
            match row[3]? with
            | none => .error .indexError
            | some rg =>
                match pyInt rg with
                | none => .error .valueError
                | some r0 =>
                    match row[0]?, row[1]?, row[2]? with
                    | some v0, some v1, some v2 =>
                        match pyInt v2 with
                        | none => .error .valueError
                        | some g0 =>
                            pure (grid.set (rowN - 1)
                              ([v0, v1, intStr g0, intStr (r0 + 1)] ++ row.drop 4))
                    | _, _, _ => .error .indexError

/-! ### webhook_handler.py and the POST /webhook route of main.py -/

/-- A live-update record emitted to the SocketIO transport. -/
structure Emit where
  userId : String
  userName : String
  giftedSubs : Int
  rewardsGiven : Int
  deriving DecidableEq

/-- Model of `WebhookHandler.handle_webhook`: echo a `"challenge"` payload;
otherwise read `data["event"]` (raising `KeyError` when absent), emit
the `update_gifters` record, then upsert the ledger row.  The emitted
records are reported alongside the outcome, and emission precedes the
upsert, so an upsert failure still shows the emit. -/
def handleWebhook (grid : Grid) (data : Payload) :
    List Emit × Except PyErr (String × Grid) :=
  match data.challenge with
  | some c => ([], .ok (c, grid))
  | none =>
      match data.event with
      | none => ([], .error .keyError)
      | some e =>
          ([⟨e.userId, e.userName, e.total, 0⟩],
            match appendOrUpdateRow grid e.userId e.userName e.total 0 with
            | .error err => .error err
            | .ok g' => .ok ("OK", g'))

/-- The POST `/webhook` route of `main.py`: takes `request.json`,
constructs a `WebhookHandler` and dispatches to it.  No signature
verification happens anywhere on this path — the route never reads the
signature headers — and a handler exception propagates to the framework
as an error response. -/
def handleWebhookRoute (grid : Grid) (r : WebhookRequest) :
    List Emit × Except PyErr (String × Grid) :=
  handleWebhook grid r.json

/-! ### googlesheets.py: tenant registry and the divergent upsert

The second sheets module keeps per-row dictionaries keyed by the header
row, a `SheetManager` mapping tenant ids to `StreamerSheet` handles, and
its own `append_or_update_row` taking a column dictionary. -/

/-- The `StreamerSheet` schema declared in `googlesheets.py`. -/
def streamerSchema : List String := ["user_id", "user_name", "gifted_subs", "rewards_given"]

/-- Model of `GoogleSheets.get_all_rows` in `googlesheets.py`: each data row as a
dictionary zipping the header row with the row's cells. -/
def gglGetAllRows (grid : Grid) : List (List (String × String)) :=
  match grid with
  | [] => []
  | headers :: data => data.map (fun row => headers.zip row)

/-- Model of `_column_index_to_letter`, that is `chr(65 + column_id)`. -/
def colLetter (colId : Nat) : String := String.mk [Char.ofNat (65 + colId)]

/-- Model of `GoogleSheets.find_row_by_col_value`: resolves the column to its
letter, then looks that LETTER up in the header-keyed row dictionaries —
the comparison the source performs, which can only match a header that
is literally a column letter. -/
def findRowByColValue (schema : List String) (grid : Grid) (colName value : String) :
    Except PyErr (Option (List (String × String))) :=
  if colName ∈ schema then
    .ok ((gglGetAllRows grid).find? (fun row =>
      match row.lookup (colLetter (schema.findIdx (fun c => c == colName))) with
      | some v => v == value
      | none => false))
  else .error .valueError

/-- Model of `GoogleSheets.append_or_update_row` in `googlesheets.py` at the
streamer schema: on a found row the update loop's first iteration
evaluates `constants.UNICODE_A_VALUE`, which `constants.py` never
defines, raising `AttributeError`; on no match the row is appended after
the last data row. -/
def gglAppendOrUpdateRow (grid : Grid) (userId userName giftedSubs rewardsGiven : String) :
    Except PyErr Grid := do
  let rowOpt ← findRowByColValue streamerSchema grid "user_id" userId
  match rowOpt with
  | some _ => .error .attributeError
  | none => pure (grid ++ [[userId, userName, giftedSubs, rewardsGiven]])

/-- A `StreamerSheet` handle as `SheetManager` caches it: the
spreadsheet (ledger) id it is bound to. -/
structure StreamerSheet where
  spreadsheetId : String
  deriving DecidableEq

/-- Keys of a Python `dict` built over this key list: duplicates are
dropped, keeping the first occurrence, in insertion order (fuel keeps
the recursion structural). -/
def keysDedupAux : Nat → List String → List String
  | 0, _ => []
  | _ + 1, [] => []
  | fuel + 1, h :: t => h :: keysDedupAux fuel (t.filter (fun x => x != h))

/-- First-occurrence deduplication of a key list. -/
def keysDedup (l : List String) : List String := keysDedupAux l.length l

/-- Model of `GoogleSheets._get_headers` in `googlesheets.py`: the keys
of the first row dictionary returned with `include_headers=True` — the
header row's cells as dict keys, so deduplicated in first-occurrence
order — and `[]` when the sheet has no rows at all. -/
def gglHeaders (grid : Grid) : List String :=
  match grid with
  | [] => []
  | headers :: _ => keysDedup headers

/-- Model of `StreamerSheet.__init__`: sets the streamer schema and runs
`_validate_schema`, which reads the sheet's headers through the API and
raises `ValueError` unless they equal the schema.  `contents` is the
grid of the spreadsheet the handle is being constructed over. -/
def mkStreamerSheet (contents : Grid) (sid : String) : Except PyErr StreamerSheet :=
  if gglHeaders contents = streamerSchema then .ok ⟨sid⟩ else .error .valueError

/-- State of a `SheetManager`: the in-memory tenant map, the
reference-sheet grid, and the ids of the spreadsheets created so far
through the Drive service (each such file is a distinct backing
ledger). -/
structure SheetManagerState where
  streamerSheets : List (String × StreamerSheet)
  refGrid : Grid
  driveFiles : List String
  deriving DecidableEq

/-- Python `dict` insertion: replace the value of an existing key,
append a new key at the end. -/
def dictInsert (m : List (String × StreamerSheet)) (k : String) (v : StreamerSheet) :
    List (String × StreamerSheet) :=
  if (m.lookup k).isSome then m.map (fun p => if p.1 = k then (k, v) else p)
  else m ++ [(k, v)]

/-- Model of `GoogleSheets.update_cell` at a 1-based row and 0-based column: the
Sheets API writes the addressed cell, materializing any missing rows and
cells on the way. -/
def setCell (g : Grid) (rowN colIdx : Nat) (v : String) : Grid :=
  let g1 := g ++ List.replicate (rowN - g.length) []
  match g1[rowN - 1]? with
  | none => g1
  | some row =>
      g1.set (rowN - 1) ((row ++ List.replicate (colIdx + 1 - row.length) "").set colIdx v)

/-- Model of `SheetManager._create_streamer_sheet`, in source order:
create a spreadsheet through the Drive service (`freshId` is the id the
service answers; the new file has no cells), write the reference row at
`len(streamer_sheets) + 2` through `update_cell`, then construct
`StreamerSheet(credentials, id)` over the new EMPTY spreadsheet — whose
schema validation raises `ValueError`, leaving the cache insert and the
id return unreached while the Drive file and the reference-row writes
persist. -/
def createStreamerSheet (st : SheetManagerState) (freshId : String) (userId : String) :
    Except PyErr String × SheetManagerState :=
  let st1 := { st with driveFiles := st.driveFiles ++ [freshId] }
  let rowNumber := st1.streamerSheets.length + 2
  let ref2 := setCell (setCell st1.refGrid rowNumber 0 userId) rowNumber 1 freshId
  match mkStreamerSheet [] freshId with
  | .error e => (.error e, { st1 with refGrid := ref2 })
  | .ok sheet =>
      (.ok freshId,
        { st1 with streamerSheets := dictInsert st1.streamerSheets userId sheet,
                   refGrid := ref2 })

/-- Model of `SheetManager.get_streamer_sheet` (`resolve(tenant_id)`): a
cache hit returns the cached `StreamerSheet` handle (`Sum.inl`); a miss
runs `_create_streamer_sheet` and returns its result — the raw
spreadsheet-id string (`Sum.inr`) when construction succeeds, and its
propagated exception otherwise. -/
def getStreamerSheet (st : SheetManagerState) (freshId : String) (userId : String) :
    Except PyErr (StreamerSheet ⊕ String) × SheetManagerState :=
  match st.streamerSheets.lookup userId with
  | some sheet => (.ok (.inl sheet), st)
  | none =>
      match createStreamerSheet st freshId userId with
      | (.error e, st') => (.error e, st')
      | (.ok sid, st') => (.ok (.inr sid), st')

/-! ### Derived notions used by the statements -/

/-- A key is free in a grid when every row is nonempty and no row's
first cell equals it — the states in which `get_user_row` scans the
whole grid and finds nothing. -/
def keyFree (u : String) : Grid → Bool
  | [] => true
  | [] :: _ => false
  | (c :: _) :: rest => c != u && keyFree u rest

/-- The numeric reading of grid row `i`: its `gifted_subs` and
`rewards_given` cells as integers, when both parse. -/
def parsedEntry (grid : Grid) (i : Nat) : Option (Int × Int) :=
  match grid[i]? with
  | none => none
  | some row =>
      match row[2]? with
      | none => none
      | some gs =>
          match row[3]? with
          | none => none
          | some rg =>
              match pyInt gs, pyInt rg with
              | some g0, some r0 => some (g0, r0)
              | _, _ => none

/-- The normal ledger operations: an event-driven upsert and the
`/reward` increment. -/
inductive NormalOp
  | upsert (u n : String) (g r : Int)
  | reward (u : String)

/-- Run a normal operation against a grid. -/
def applyOp : NormalOp → Grid → Except PyErr Grid
  | .upsert u n g r, grid => appendOrUpdateRow grid u n g r
  | .reward u, grid => incrementRewards grid u

/-- Normality condition: upserts carry non-negative gift counts and
reward increments. -/
def opNormal : NormalOp → Prop
  | .upsert _ _ g r => 0 ≤ g ∧ 0 ≤ r
  | .reward _ => True

/-- One successful normal operation leading from one ledger state to the
next. -/
def NormalStep (s s' : Grid) : Prop :=
  ∃ op, opNormal op ∧ applyOp op s = .ok s'

/-- Replace the character at position `i` of a string: a single-byte
mutation (on one-byte characters) of the message text. -/
def mutStr (s : String) (i : Nat) (c : Char) : String := String.mk (s.data.set i c)

/-- A concrete inbound delivery whose signature header does not match
the signature computed from the shared secret: the scenario of the
unauthenticated-webhook claim. -/
def c1Request : WebhookRequest :=
  { messageId := some "e76c6bd4-55c9-4987-8304-da1588d8988b"
    timestamp := some "2023-02-05T12:00:00Z"
    signature := some "sha256=deadbeef"
    body := "\x7b\"event\":\x7b\"user_id\":\"42\",\"user_name\":\"ann\",\"total\":5\x7d\x7d"
    json := { challenge := none, event := some ⟨"42", "ann", 5⟩ } }

/-- A fresh `SheetManager` over an empty reference table (header row
only): the first-resolution scenario. -/
def freshManager : SheetManagerState :=
  { streamerSheets := [], refGrid := [["user_id", "sheet_id"]], driveFiles := [] }

/-! ### Theorems -/

/-- Test vector: SHA-256 of `"abc"` (FIPS 180-2, appendix B.1). -/
theorem sha256_vector_abc :
    hexStr (sha256 (strBytes "abc")) =
      "ba7816bf8f01cfea414140de5dae2223b00361a396177a9cb410ff61f20015ad" := by
  decide

set_option maxRecDepth 100000 in
/-- Test vector: HMAC-SHA256 with key `"key"` over the quick-brown-fox
sentence (RFC-documented example). -/
theorem hmac_vector_fox :
    hexStr (hmacSha256 (strBytes "key")
        (strBytes "The quick brown fox jumps over the lazy dog")) =
      "f7bc83f430538424b13298e6aa6fb143ef4d59a14946175997479dbc2d1a3cd8" := by
  decide

theorem natDigitsAux_eq (fuel n : Nat) (h : n ≤ fuel) :
    natDigitsAux fuel n = Nat.digits 10 n := by
  induction fuel generalizing n with
  | zero =>
      have : n = 0 := by omega
      subst this
      simp [natDigitsAux]
  | succ fuel ih =>
      cases n with
      | zero => simp [natDigitsAux]
      | succ m =>
          rw [natDigitsAux, Nat.digits_def' (by norm_num : 1 < 10) (Nat.succ_pos m)]
          have hdiv : (m + 1) / 10 ≤ fuel := by
            have := Nat.div_lt_self (Nat.succ_pos m) (by norm_num : 1 < 10)
            omega
          rw [ih _ hdiv]

/-- The fuel version agrees with `Nat.digits 10`. -/
theorem natDigits_eq (n : Nat) : natDigits n = Nat.digits 10 n :=
  natDigitsAux_eq n n (Nat.le_refl n)

theorem digitVal_digitCh {d : Nat} (hd : d < 10) : digitVal (digitCh d) = some d := by
  interval_cases d <;> decide

theorem digitCh_ne_minus {d : Nat} (hd : d < 10) : digitCh d ≠ '-' := by
  interval_cases d <;> decide

theorem digitsVal_map_digitCh (L : List Nat) (acc : Nat) (h : ∀ d ∈ L, d < 10) :
    digitsVal (L.map digitCh) acc =
      some (L.foldl (fun a d => a * 10 + d) acc) := by
  induction L generalizing acc with
  | nil => simp [digitsVal]
  | cons d L ih =>
      have hd : d < 10 := h d (by simp)
      simp only [List.map_cons, digitsVal, digitVal_digitCh hd, List.foldl_cons]
      exact ih _ (fun x hx => h x (by simp [hx]))

theorem foldl_reverse_ofDigits (L : List Nat) (acc : Nat) :
    (L.reverse.foldl (fun a d => a * 10 + d) acc) =
      acc * 10 ^ L.length + Nat.ofDigits 10 L := by
  induction L generalizing acc with
  | nil => simp [Nat.ofDigits]
  | cons d L ih =>
      simp only [List.reverse_cons, List.foldl_append, List.foldl_cons,
        List.foldl_nil, ih, Nat.ofDigits_cons, List.length_cons]
      ring

/-- Parsing the decimal rendering of a natural number recovers it. -/
theorem digitsVal_natStr (n : Nat) : digitsVal (natStr n).data 0 = some n := by
  by_cases h0 : n = 0
  · subst h0; decide
  · have hlt : ∀ d ∈ (Nat.digits 10 n).reverse, d < 10 := by
      intro d hd
      exact Nat.digits_lt_base (by norm_num) (List.mem_reverse.mp hd)
    have hdata : (natStr n).data = ((Nat.digits 10 n).reverse.map digitCh) := by
      simp [natStr, h0, natDigits_eq]
    rw [hdata, digitsVal_map_digitCh _ _ hlt, foldl_reverse_ofDigits]
    simp [Nat.ofDigits_digits]

/-- The rendering of a natural number is a nonempty string. -/
theorem natStr_data_ne_nil (n : Nat) : (natStr n).data ≠ [] := by
  by_cases h0 : n = 0
  · subst h0; decide
  · have : Nat.digits 10 n ≠ [] := Nat.digits_ne_nil_iff_ne_zero.mpr h0
    simp [natStr, h0, natDigits_eq, this]

/-- The rendering of a natural number never starts with a minus sign. -/
theorem natStr_head_ne_minus (n : Nat) {c : Char} {cs : List Char}
    (h : (natStr n).data = c :: cs) : c ≠ '-' := by
  by_cases h0 : n = 0
  · subst h0
    have h' : ('0' :: ([] : List Char)) = c :: cs := h
    cases h'
    decide
  · have hdata : (natStr n).data = ((Nat.digits 10 n).reverse.map digitCh) := by
      simp [natStr, h0, natDigits_eq]
    rw [hdata] at h
    rcases hrev : (Nat.digits 10 n).reverse with _ | ⟨d, L⟩
    · rw [hrev] at h; simp at h
    · rw [hrev] at h
      simp only [List.map_cons, List.cons.injEq] at h
      have hd : d < 10 :=
        Nat.digits_lt_base (by norm_num) (List.mem_reverse.mp (hrev ▸ List.mem_cons_self d L))
      exact h.1 ▸ digitCh_ne_minus hd

/-- Parsing the decimal rendering of a natural number with `pyInt`
recovers it. -/
theorem pyInt_natStr (n : Nat) : pyInt (natStr n) = some (n : Int) := by
  rcases h : (natStr n).data with _ | ⟨c, cs⟩
  · exact absurd h (natStr_data_ne_nil n)
  · have hc : c ≠ '-' := natStr_head_ne_minus n h
    have := digitsVal_natStr n
    rw [h] at this
    simp [pyInt, h, hc, this]

/-- Round trip: `pyInt` recovers every integer from its rendering,
modelling that a value written by the adapter reads back unchanged. -/
theorem pyInt_intStr (k : Int) : pyInt (intStr k) = some k := by
  by_cases hk : k < 0
  · have hm : ((-k).toNat : Int) = -k := Int.toNat_of_nonneg (by omega)
    have hdata : (intStr k).data = '-' :: (natStr (-k).toNat).data := by
      simp [intStr, hk, String.data_append]
    have hne : (natStr (-k).toNat).data ≠ [] := natStr_data_ne_nil _
    have hv := digitsVal_natStr (-k).toNat
    simp only [pyInt, hdata, if_pos rfl, if_neg hne, hv]
    simp [hm]
  · have hm : (k.toNat : Int) = k := Int.toNat_of_nonneg (by omega)
    have hdata : intStr k = natStr k.toNat := by simp [intStr, hk]
    rw [hdata, pyInt_natStr, hm]

/-! #### Helper lemmas on the ledger scan -/

theorem getUserRowAux_keyFree (u : String) (grid : Grid) (h : keyFree u grid = true) :
    ∀ i, getUserRowAux grid u i = .ok none := by
  induction grid with
  | nil => intro i; rfl
  | cons row rest ih =>
      intro i
      rcases row with _ | ⟨c, cs⟩
      · exact absurd h (by simp [keyFree])
      · have h' : (c != u) = true ∧ keyFree u rest = true := by
          simpa [keyFree, Bool.and_eq_true] using h
        have hc : c ≠ u := bne_iff_ne.mp h'.1
        simp only [getUserRowAux, if_neg hc]
        exact ih h'.2 (i + 1)

theorem getUserRowAux_concat_hit (u : String) (tl : List String) (grid : Grid)
    (h : keyFree u grid = true) :
    ∀ i, getUserRowAux (grid ++ [u :: tl]) u i = .ok (some (grid.length + i + 1)) := by
  induction grid with
  | nil =>
      intro i
      simp [getUserRowAux]
  | cons row rest ih =>
      intro i
      rcases row with _ | ⟨c, cs⟩
      · exact absurd h (by simp [keyFree])
      · have h' : (c != u) = true ∧ keyFree u rest = true := by
          simpa [keyFree, Bool.and_eq_true] using h
        have hc : c ≠ u := bne_iff_ne.mp h'.1
        simp only [List.cons_append, getUserRowAux, if_neg hc]
        exact (ih h'.2 (i + 1)).trans (by
          have harith : rest.length + (i + 1) + 1 = rest.length + 1 + i + 1 := by omega
          rw [harith]
          rfl)

theorem countP_keyFree (u : String) (grid : Grid) (h : keyFree u grid = true) :
    grid.countP (fun row => row.head? == some u) = 0 := by
  induction grid with
  | nil => rfl
  | cons row rest ih =>
      rcases row with _ | ⟨c, cs⟩
      · exact absurd h (by simp [keyFree])
      · have h' : (c != u) = true ∧ keyFree u rest = true := by
          simpa [keyFree, Bool.and_eq_true] using h
        have hc : c ≠ u := bne_iff_ne.mp h'.1
        rw [List.countP_cons, ih h'.2]
        simp [hc]

theorem set_concat (l : List α) (x y : α) : (l ++ [x]).set l.length y = l ++ [y] := by
  induction l with
  | nil => rfl
  | cons a t ih =>
      simp only [List.cons_append, List.length_cons, List.set]
      exact congrArg (fun z => a :: z) ih

/-- With the key free, `append_or_update_row` appends the rendered row
at the end. -/
theorem appendOrUpdateRow_keyFree (grid : Grid) (u n : String) (g r : Int)
    (h : keyFree u grid = true) :
    appendOrUpdateRow grid u n g r = .ok (grid ++ [[u, n, intStr g, intStr r]]) := by
  have hg : getUserRow grid u = .ok none := getUserRowAux_keyFree u grid h 0
  unfold appendOrUpdateRow
  rw [hg]
  rfl

/-! #### Claim theorems -/

/-- Claim C4 (code_bug evidence): with the message-id header absent (or
the timestamp header absent) `compute_signature` concatenates `None`
with a string and `is_valid_notification` raises `TypeError` instead of
returning false; only an absent signature header yields `false`. -/
theorem signature_check_missing_header_behavior :
    isValidNotification "s3cr3t"
        { messageId := none, timestamp := some "t", signature := some "sig",
          body := "b", json := { challenge := none, event := none } } =
      .error .typeError ∧
    isValidNotification "s3cr3t"
        { messageId := some "m", timestamp := none, signature := some "sig",
          body := "b", json := { challenge := none, event := none } } =
      .error .typeError ∧
    isValidNotification "s3cr3t"
        { messageId := some "m", timestamp := some "t", signature := none,
          body := "b", json := { challenge := none, event := none } } =
      .ok false := by
  exact ⟨rfl, rfl, rfl⟩

/-- Claim C8 (code_bug evidence): on a network-level failure (absent
response sentinel) `is_access_token_valid` raises `AttributeError`
rather than returning false; it returns true at status 200, false at a
non-200 success status, and raises again at an error status (for which
`raise_for_status` already turned the response into the sentinel). -/
theorem token_validation_network_failure_raises :
    isAccessTokenValid none = .error .attributeError ∧
    isAccessTokenValid (some ⟨200⟩) = .ok true ∧
    isAccessTokenValid (some ⟨204⟩) = .ok false ∧
    isAccessTokenValid (some ⟨401⟩) = .error .attributeError := by
  exact ⟨rfl, rfl, rfl, rfl⟩

/-- Claim C3 (code_bug evidence): on a fresh manager the first
`get_streamer_sheet("42")` creates a Drive file and writes the reference
row, but then `StreamerSheet.__init__`'s schema validation reads the
just-created EMPTY spreadsheet, finds no headers, and raises
`ValueError` — before the cache insert and the return.  No handle is
ever returned, the in-memory map stays empty, and the second sequential
call misses the cache and provisions a SECOND backing ledger,
overwriting the reference row (row 2 again, since the cache never grew)
with the new id. -/
theorem resolve_first_call_raises_and_reprovisions :
    getStreamerSheet freshManager "sheet-001" "42" =
      (.error .valueError,
        { streamerSheets := [],
          refGrid := [["user_id", "sheet_id"], ["42", "sheet-001"]],
          driveFiles := ["sheet-001"] }) ∧
    getStreamerSheet
        { streamerSheets := [],
          refGrid := [["user_id", "sheet_id"], ["42", "sheet-001"]],
          driveFiles := ["sheet-001"] }
        "sheet-002" "42" =
      (.error .valueError,
        { streamerSheets := [],
          refGrid := [["user_id", "sheet_id"], ["42", "sheet-002"]],
          driveFiles := ["sheet-001", "sheet-002"] }) := by
  exact ⟨by decide, by decide⟩

/-- Claim C7 counterexample: at a delivery whose payload has neither a
`"challenge"` nor an `"event"` field, the route's outcome is a
propagated `KeyError` — an untyped lookup failure surfaced to the
framework as an error response — not a typed malformed-event error
acknowledged with a success status; no emit is produced. -/
theorem malformed_payload_propagates_keyerror_cex :
    handleWebhookRoute [streamerSchema]
        { messageId := some "m", timestamp := some "t", signature := some "sig",
          body := "not-json", json := { challenge := none, event := none } } =
      ([], .error PyErr.keyError) := by
  rfl

/-- Claim C7 (amended): for every ledger state, a payload with neither
field makes the handler raise `KeyError` on `data["event"]` before any
emit or ledger access; the error propagates to the HTTP caller, so no
ledger row is touched and no live-update event is emitted. -/
theorem malformed_payload_keyerror (grid : Grid) :
    handleWebhook grid { challenge := none, event := none } =
      ([], .error PyErr.keyError) := by
  rfl

/-- Claim C2 counterexample: upserting `("1", "a", 1, 1)` twice into an
empty ledger leaves one row holding `("1", "a", 2, 2)` — the counts are
the SUMS of the stored and supplied values, not the second call's
supplied values `1` (rendered `"1"`). -/
theorem upsert_twice_not_overwrite_cex :
    appendOrUpdateRow [streamerSchema] "1" "a" 1 1 =
      .ok [streamerSchema, ["1", "a", "1", "1"]] ∧
    appendOrUpdateRow [streamerSchema, ["1", "a", "1", "1"]] "1" "a" 1 1 =
      .ok [streamerSchema, ["1", "a", "2", "2"]] ∧
    intStr 1 = "1" ∧ ("2" : String) ≠ "1" := by
  exact ⟨by decide, by decide, by decide, by decide⟩

/-- Claim C10: whenever token validation returns a boolean `b`,
`set_user_access_token_if_valid` returns exactly `b`, replaces the
stored user token by the supplied one only when `b` is true, and leaves
every other field of the client unchanged. -/
theorem set_user_access_token_frame (oracle : Option HResp) (st : TwitchState)
    (token : String) (b : Bool) (h : isAccessTokenValid oracle = .ok b) :
    setUserAccessTokenIfValid oracle st token =
      .ok (b, { authCode := st.authCode,
                userAccessToken := if b then some token else st.userAccessToken,
                appAccessToken := st.appAccessToken,
                broadcasterId := st.broadcasterId }) := by
  simp [setUserAccessTokenIfValid, h]

/-- Witness for the token-setter frame theorem at a concrete 204
response: validation returns false and the stored token stays. -/
theorem set_user_access_token_frame_witness :
    setUserAccessTokenIfValid (some ⟨204⟩)
        { authCode := none, userAccessToken := some "old",
          appAccessToken := "app", broadcasterId := none } "new" =
      .ok (false, { authCode := none,
                    userAccessToken := if false then some "new" else some "old",
                    appAccessToken := "app", broadcasterId := none }) :=
  set_user_access_token_frame (some ⟨204⟩)
    { authCode := none, userAccessToken := some "old",
      appAccessToken := "app", broadcasterId := none } "new" false (by decide)

/-! #### Reduction and frame lemmas -/

theorem ebind_ok {e a b : Type} (x : a) (f : a → Except e b) :
    (Except.ok x >>= f) = f x := rfl

theorem ebind_err {e a b : Type} (err : e) (f : a → Except e b) :
    ((Except.error err : Except e a) >>= f) = .error err := rfl

theorem parsedEntry_lt (s : Grid) (i : Nat) (p : Int × Int)
    (hp : parsedEntry s i = some p) : i < s.length := by
  by_contra hcon
  have hnone : s[i]? = none := List.getElem?_eq_none (Nat.le_of_not_lt hcon)
  simp [parsedEntry, hnone] at hp

theorem parsedEntry_append (s : Grid) (x : List String) (i : Nat) (hi : i < s.length) :
    parsedEntry (s ++ [x]) i = parsedEntry s i := by
  simp [parsedEntry, List.getElem?_append_left hi]

theorem parsedEntry_set_ne (s : Grid) (j i : Nat) (x : List String) (hij : i ≠ j) :
    parsedEntry (s.set j x) i = parsedEntry s i := by
  simp [parsedEntry, List.getElem?_set_ne (Ne.symm hij)]

theorem parsedEntry_set_row (s : Grid) (j : Nat) (hj : j < s.length)
    (a b : String) (x y : Int) (t : List String) :
    parsedEntry (s.set j ([a, b, intStr x, intStr y] ++ t)) j = some (x, y) := by
  have hcell2 : ([a, b, intStr x, intStr y] ++ t)[2]? = some (intStr x) := by
    rw [List.getElem?_append_left (by simp)]
    rfl
  have hcell3 : ([a, b, intStr x, intStr y] ++ t)[3]? = some (intStr y) := by
    rw [List.getElem?_append_left (by simp)]
    rfl
  simp [parsedEntry, List.getElem?_set_eq_of_lt _ hj, hcell2, hcell3, pyInt_intStr]

/-- Shape of a successful found-key upsert: the matched row's counts are
read, the supplied values are ADDED onto them, and cells A–D of that row
are overwritten in place. -/
theorem appendOrUpdateRow_update (grid : Grid) (j : Nat) (u n : String)
    (g r g0 r0 : Int) (row : List String) (gs rg : String)
    (hfind : getUserRow grid u = .ok (some (j + 1)))
    (hrow : grid[j]? = some row) (hne : row ≠ [])
    (h2 : row[2]? = some gs) (hg : pyInt gs = some g0)
    (h3 : row[3]? = some rg) (hr : pyInt rg = some r0) :
    appendOrUpdateRow grid u n g r =
      .ok (grid.set j ([u, n, intStr (g + g0), intStr (r + r0)] ++ row.drop 4)) := by
  simp only [appendOrUpdateRow, hfind, ebind_ok, Nat.add_sub_cancel, hrow,
    if_neg hne, h2, hg, h3, hr]
  rfl

/-- Shape of a successful reward increment: `rewards_given` grows by
one, `gifted_subs` is re-rendered unchanged, and cells A–D of the row
are overwritten in place. -/
theorem incrementRewards_update (grid : Grid) (j : Nat) (u : String)
    (row : List String) (v0 v1 gs rg : String) (g0 r0 : Int)
    (hfind : getUserRow grid u = .ok (some (j + 1)))
    (hrow : grid[j]? = some row) (hne : row ≠ [])
    (h0 : row[0]? = some v0) (h1 : row[1]? = some v1)
    (h2 : row[2]? = some gs) (hg : pyInt gs = some g0)
    (h3 : row[3]? = some rg) (hr : pyInt rg = some r0) :
    incrementRewards grid u =
      .ok (grid.set j ([v0, v1, intStr g0, intStr (r0 + 1)] ++ row.drop 4)) := by
  simp only [incrementRewards, hfind, ebind_ok, Nat.add_sub_cancel, hrow,
    if_neg hne, h0, h1, h2, hg, h3, hr]
  rfl

/-! #### Remaining claim theorems -/

/-- Claim C2 (amended): upserting the same
`(gifter_id, gifter_name, gift_count, rewards_given)` twice into a
ledger whose rows are nonempty and free of that key leaves exactly one
row for the key — but that row carries the SUMS `gift_count + gift_count`
and `rewards_given + rewards_given`, the supplied values added onto the
stored ones, not the second call's values verbatim. -/
theorem upsert_twice_accumulates (grid : Grid) (u n : String) (g r : Int)
    (h : keyFree u grid = true) :
    (appendOrUpdateRow grid u n g r >>= fun g1 => appendOrUpdateRow g1 u n g r) =
      .ok (grid ++ [[u, n, intStr (g + g), intStr (r + r)]]) ∧
    (grid ++ [[u, n, intStr (g + g), intStr (r + r)]]).countP
      (fun row => row.head? == some u) = 1 := by
  constructor
  · have h1 := appendOrUpdateRow_keyFree grid u n g r h
    have hfind : getUserRow (grid ++ [[u, n, intStr g, intStr r]]) u =
        .ok (some (grid.length + 1)) := by
      have hx := getUserRowAux_concat_hit u [n, intStr g, intStr r] grid h 0
      simpa using hx
    have hrow : (grid ++ [[u, n, intStr g, intStr r]])[grid.length]? =
        some [u, n, intStr g, intStr r] :=
      List.getElem?_concat_length grid [u, n, intStr g, intStr r]
    have h4 := appendOrUpdateRow_update (grid ++ [[u, n, intStr g, intStr r]])
      grid.length u n g r g r [u, n, intStr g, intStr r] (intStr g) (intStr r)
      hfind hrow (by simp) rfl (pyInt_intStr g) rfl (pyInt_intStr r)
    simp only [h1, ebind_ok, h4]
    rw [show ([u, n, intStr (g + g), intStr (r + r)] ++
        ([u, n, intStr g, intStr r] : List String).drop 4) =
        [u, n, intStr (g + g), intStr (r + r)] from by simp]
    rw [set_concat]
  · rw [List.countP_append, countP_keyFree u grid h]
    simp

/-- Witness for the amended upsert claim at a concrete ledger. -/
theorem upsert_twice_accumulates_witness :
    keyFree "1" [streamerSchema] = true ∧
    ((appendOrUpdateRow [streamerSchema] "1" "a" 2 3 >>= fun g1 =>
        appendOrUpdateRow g1 "1" "a" 2 3) =
      .ok ([streamerSchema] ++ [["1", "a", intStr (2 + 2), intStr (3 + 3)]]) ∧
    (([streamerSchema] ++ [["1", "a", intStr (2 + 2), intStr (3 + 3)]]).countP
      (fun row => row.head? == some "1") = 1)) :=
  ⟨by decide, upsert_twice_accumulates [streamerSchema] "1" "a" 2 3 (by decide)⟩

/-- Claim C6: a notification for a first-seen gifter appends exactly the
row `[user_id, user_name, total, 0]` at the end of the ledger, leaves
every other row unchanged, emits the matching live update and answers
`"OK"`. -/
theorem handle_webhook_first_seen_appends (grid : Grid) (u n : String) (t : Int)
    (h : keyFree u grid = true) :
    handleWebhook grid { challenge := none, event := some ⟨u, n, t⟩ } =
      ([⟨u, n, t, 0⟩], .ok ("OK", grid ++ [[u, n, intStr t, intStr 0]])) := by
  have ha := appendOrUpdateRow_keyFree grid u n t 0 h
  simp [handleWebhook, ha]

/-- Witness for the first-seen notification claim on a two-row ledger. -/
theorem handle_webhook_first_seen_appends_witness :
    keyFree "42" [streamerSchema, ["7", "bob", "1", "0"]] = true ∧
    handleWebhook [streamerSchema, ["7", "bob", "1", "0"]]
        { challenge := none, event := some ⟨"42", "ann", 5⟩ } =
      ([⟨"42", "ann", 5, 0⟩],
        .ok ("OK", [streamerSchema, ["7", "bob", "1", "0"]] ++
          [["42", "ann", intStr 5, intStr 0]])) :=
  ⟨by decide,
    handle_webhook_first_seen_appends [streamerSchema, ["7", "bob", "1", "0"]]
      "42" "ann" 5 (by decide)⟩

/-- Claim C9: across one successful normal operation (an upsert with
non-negative supplied counts, or a reward increment) the parsed
`gifted_subs` and `rewards_given` of every ledger row never decrease. -/
theorem normal_ops_monotone (s s' : Grid) (h : NormalStep s s') (i : Nat)
    (gv rv : Int) (hp : parsedEntry s i = some (gv, rv)) :
    ∃ gv' rv', parsedEntry s' i = some (gv', rv') ∧ gv ≤ gv' ∧ rv ≤ rv' := by
  obtain ⟨op, hnorm, happ⟩ := h
  have hilt : i < s.length := parsedEntry_lt s i (gv, rv) hp
  cases op with
  | upsert u n g r =>
      obtain ⟨hg0, hr0⟩ := hnorm
      cases hfind : getUserRow s u with
      | error e =>
          simp only [applyOp, appendOrUpdateRow, hfind, ebind_err] at happ
          cases happ
      | ok rowOpt =>
          cases rowOpt with
          | none =>
              simp only [applyOp, appendOrUpdateRow, hfind, ebind_ok] at happ
              have hs' : s' = s ++ [[u, n, intStr g, intStr r]] := by
                cases happ
                rfl
              subst hs'
              exact ⟨gv, rv, by rw [parsedEntry_append s _ i hilt]; exact hp,
                le_refl gv, le_refl rv⟩
          | some rowN =>
              cases hrow : s[rowN - 1]? with
              | none =>
                  simp only [applyOp, appendOrUpdateRow, hfind, ebind_ok, hrow] at happ
                  cases happ
              | some row =>
                  by_cases hemp : row = []
                  · simp only [applyOp, appendOrUpdateRow, hfind, ebind_ok, hrow,
                      if_pos hemp] at happ
                    have hs' : s' = s.set (rowN - 1) [u, n, intStr g, intStr r] := by
                      cases happ
                      rfl
                    subst hs'
                    by_cases hij : i = rowN - 1
                    · exfalso
                      subst hij
                      rw [hemp] at hrow
                      simp [parsedEntry, hrow] at hp
                    · exact ⟨gv, rv, by rw [parsedEntry_set_ne s _ i _ hij]; exact hp,
                        le_refl gv, le_refl rv⟩
                  · cases h2 : row[2]? with
                    | none =>
                        simp only [applyOp, appendOrUpdateRow, hfind, ebind_ok, hrow,
                          if_neg hemp, h2] at happ
                        cases happ
                    | some gs =>
                        cases hgp : pyInt gs with
                        | none =>
                            simp only [applyOp, appendOrUpdateRow, hfind, ebind_ok, hrow,
                              if_neg hemp, h2, hgp] at happ
                            cases happ
                        | some g0 =>
                            cases h3 : row[3]? with
                            | none =>
                                simp only [applyOp, appendOrUpdateRow, hfind, ebind_ok,
                                  hrow, if_neg hemp, h2, hgp, h3] at happ
                                cases happ
                            | some rg =>
                                cases hrp : pyInt rg with
                                | none =>
                                    simp only [applyOp, appendOrUpdateRow, hfind,
                                      ebind_ok, hrow, if_neg hemp, h2, hgp, h3, hrp] at happ
                                    cases happ
                                | some r0 =>
                                    simp only [applyOp, appendOrUpdateRow, hfind,
                                      ebind_ok, hrow, if_neg hemp, h2, hgp, h3, hrp] at happ
                                    have hs' : s' = s.set (rowN - 1)
                                        ([u, n, intStr (g + g0), intStr (r + r0)] ++
                                          row.drop 4) := by
                                      cases happ
                                      rfl
                                    subst hs'
                                    by_cases hij : i = rowN - 1
                                    · subst hij
                                      have hpv : gv = g0 ∧ rv = r0 := by
                                        simp [parsedEntry, hrow, h2, h3, hgp, hrp] at hp
                                        exact ⟨hp.1.symm, hp.2.symm⟩
                                      obtain ⟨hgv, hrv⟩ := hpv
                                      refine ⟨g + g0, r + r0, ?_, ?_, ?_⟩
                                      · exact parsedEntry_set_row s (rowN - 1) hilt u n
                                          (g + g0) (r + r0) (row.drop 4)
                                      · omega
                                      · omega
                                    · exact ⟨gv, rv,
                                        by rw [parsedEntry_set_ne s _ i _ hij]; exact hp,
                                        le_refl gv, le_refl rv⟩
  | reward u =>
      cases hfind : getUserRow s u with
      | error e =>
          simp only [applyOp, incrementRewards, hfind, ebind_err] at happ
          cases happ
      | ok rowOpt =>
          cases rowOpt with
          | none =>
              simp only [applyOp, incrementRewards, hfind, ebind_ok] at happ
              cases happ
          | some rowN =>
              cases hrow : s[rowN - 1]? with
              | none =>
                  simp only [applyOp, incrementRewards, hfind, ebind_ok, hrow] at happ
                  cases happ
              | some row =>
                  by_cases hemp : row = []
                  · simp only [applyOp, incrementRewards, hfind, ebind_ok, hrow,
                      if_pos hemp] at happ
                    cases happ
                  · cases h3 : row[3]? with
                    | none =>
                        simp only [applyOp, incrementRewards, hfind, ebind_ok, hrow,
                          if_neg hemp, h3] at happ
                        cases happ
                    | some rg =>
                        cases hrp : pyInt rg with
                        | none =>
                            simp only [applyOp, incrementRewards, hfind, ebind_ok, hrow,
                              if_neg hemp, h3, hrp] at happ
                            cases happ
                        | some r0 =>
                            cases h0c : row[0]? with
                            | none =>
                                simp only [applyOp, incrementRewards, hfind, ebind_ok,
                                  hrow, if_neg hemp, h3, hrp, h0c] at happ
                                cases happ
                            | some v0 =>
                                cases h1c : row[1]? with
                                | none =>
                                    simp only [applyOp, incrementRewards, hfind,
                                      ebind_ok, hrow, if_neg hemp, h3, hrp, h0c, h1c] at happ
                                    cases happ
                                | some v1 =>
                                    cases h2c : row[2]? with
                                    | none =>
                                        simp only [applyOp, incrementRewards, hfind,
                                          ebind_ok, hrow, if_neg hemp, h3, hrp, h0c, h1c,
                                          h2c] at happ
                                        cases happ
                                    | some gs =>
                                        cases hgp : pyInt gs with
                                        | none =>
                                            simp only [applyOp, incrementRewards, hfind,
                                              ebind_ok, hrow, if_neg hemp, h3, hrp, h0c,
                                              h1c, h2c, hgp] at happ
                                            cases happ
                                        | some g0 =>
                                            simp only [applyOp, incrementRewards, hfind,
                                              ebind_ok, hrow, if_neg hemp, h3, hrp, h0c,
                                              h1c, h2c, hgp] at happ
                                            have hs' : s' = s.set (rowN - 1)
                                                ([v0, v1, intStr g0, intStr (r0 + 1)] ++
                                                  row.drop 4) := by
                                              cases happ
                                              rfl
                                            subst hs'
                                            by_cases hij : i = rowN - 1
                                            · subst hij
                                              have hpv : gv = g0 ∧ rv = r0 := by
                                                simp [parsedEntry, hrow, h2c, h3, hgp,
                                                  hrp] at hp
                                                exact ⟨hp.1.symm, hp.2.symm⟩
                                              obtain ⟨hgv, hrv⟩ := hpv
                                              refine ⟨g0, r0 + 1, ?_, ?_, ?_⟩
                                              · exact parsedEntry_set_row s (rowN - 1)
                                                  hilt v0 v1 g0 (r0 + 1) (row.drop 4)
                                              · omega
                                              · omega
                                            · refine ⟨gv, rv, ?_, le_refl gv, le_refl rv⟩
                                              rw [parsedEntry_set_ne s _ i _ hij]
                                              exact hp

/-- Witness for the monotonicity claim: a concrete upsert step from
stored counts `(2, 3)` to `(3, 4)`. -/
theorem normal_ops_monotone_witness :
    ∃ gv' rv',
      parsedEntry [streamerSchema, ["1", "b", "3", "4"]] 1 = some (gv', rv') ∧
      (2 : Int) ≤ gv' ∧ (3 : Int) ≤ rv' :=
  normal_ops_monotone [streamerSchema, ["1", "a", "2", "3"]]
    [streamerSchema, ["1", "b", "3", "4"]]
    ⟨NormalOp.upsert "1" "b" 1 1, ⟨by decide, by decide⟩, by decide⟩
    1 2 3 (by decide)

set_option maxRecDepth 1000000 in
/-- Claim C1 (code_bug evidence): the POST `/webhook` route performs no
signature verification at all.  At a concrete inbound delivery whose
signature header is invalid — `is_valid_notification` computes `false`
on it — the route still invokes the event handler, emits the live
update, writes the ledger row, and answers success instead of a
rejection. -/
theorem webhook_route_processes_unauthenticated_requests :
    isValidNotification "hub-secret" c1Request = .ok false ∧
    handleWebhookRoute [streamerSchema] c1Request =
      ([⟨"42", "ann", 5, 0⟩],
        .ok ("OK", [streamerSchema, ["42", "ann", "5", "0"]])) := by
  exact ⟨by decide, by decide⟩

/-- Characterization: `is_valid_notification` with all headers present is exactly the
string comparison of the provided signature against
`"sha256=" ++ hex(HMAC-SHA256(secret, message_id ++ timestamp ++ body))`. -/
theorem isValidNotification_eq_comparison (secret mid ts body : String)
    (p : Option String) (pl : Payload) :
    isValidNotification secret
        { messageId := some mid, timestamp := some ts, signature := p,
          body := body, json := pl } =
      .ok (p == some ("sha256=" ++ hexStr (hmacSha256 (strBytes secret)
        (strBytes (mid ++ ts ++ body))))) := by
  cases p with
  | none => rfl
  | some q => rfl

/-- The correctly computed signature is always accepted. -/
theorem correct_signature_accepted (secret mid ts body : String) (pl : Payload) :
    isValidNotification secret
        { messageId := some mid, timestamp := some ts,
          signature := some ("sha256=" ++ hexStr (hmacSha256 (strBytes secret)
            (strBytes (mid ++ ts ++ body)))),
          body := body, json := pl } = .ok true := by
  rw [isValidNotification_eq_comparison]
  simp

/-- Replacing a character of a string by a different one yields a
different string. -/
theorem mutStr_ne (s : String) (i : Nat) (c : Char)
    (hi : i < s.data.length) (hc : s.data[i]? ≠ some c) : mutStr s i c ≠ s := by
  intro he
  have hd : s.data.set i c = s.data := congrArg String.data he
  have hset : (s.data.set i c)[i]? = some c := List.getElem?_set_eq_of_lt c hi
  rw [hd] at hset
  exact hc hset

/-- Any single-character mutation of the provided signature is
rejected. -/
theorem mutated_signature_rejected (secret mid ts body : String) (pl : Payload)
    (i : Nat) (c : Char)
    (hi : i < ("sha256=" ++ hexStr (hmacSha256 (strBytes secret)
      (strBytes (mid ++ ts ++ body)))).data.length)
    (hc : ("sha256=" ++ hexStr (hmacSha256 (strBytes secret)
      (strBytes (mid ++ ts ++ body)))).data[i]? ≠ some c) :
    isValidNotification secret
        { messageId := some mid, timestamp := some ts,
          signature := some (mutStr ("sha256=" ++ hexStr (hmacSha256 (strBytes secret)
            (strBytes (mid ++ ts ++ body)))) i c),
          body := body, json := pl } = .ok false := by
  rw [isValidNotification_eq_comparison]
  have hne := mutStr_ne _ i c hi hc
  simp [hne]

/-- A mutation of the body (or, by the same statement instantiated, of
the timestamp through `mid ++ ts' ++ body`) is rejected whenever its
HMAC digest differs from the original's — the collision-freedom
hypothesis a concrete instance discharges by computing both digests. -/
theorem mutated_body_rejected_of_digest_ne (secret mid ts body bodyM : String)
    (pl : Payload)
    (hne : hexStr (hmacSha256 (strBytes secret) (strBytes (mid ++ ts ++ bodyM))) ≠
      hexStr (hmacSha256 (strBytes secret) (strBytes (mid ++ ts ++ body)))) :
    isValidNotification secret
        { messageId := some mid, timestamp := some ts,
          signature := some ("sha256=" ++ hexStr (hmacSha256 (strBytes secret)
            (strBytes (mid ++ ts ++ body)))),
          body := bodyM, json := pl } = .ok false := by
  rw [isValidNotification_eq_comparison]
  have hsig : ("sha256=" ++ hexStr (hmacSha256 (strBytes secret)
      (strBytes (mid ++ ts ++ body)))) ≠
      ("sha256=" ++ hexStr (hmacSha256 (strBytes secret)
        (strBytes (mid ++ ts ++ bodyM)))) := by
    intro he
    apply hne
    have hd := congrArg String.data he
    simp only [String.data_append] at hd
    have hx := List.append_cancel_left hd
    exact (String.ext hx).symm
  simp [hsig]

set_option maxRecDepth 1000000 in
/-- Concrete instance: a single-byte mutation of the body
(`"body"` to `"bodz"`) is rejected; the digest-difference hypothesis is
discharged by computing both HMAC digests in the kernel. -/
theorem mutated_body_rejected_concrete :
    isValidNotification "hub-secret"
        { messageId := some "m1", timestamp := some "t1",
          signature := some ("sha256=" ++ hexStr (hmacSha256 (strBytes "hub-secret")
            (strBytes ("m1" ++ "t1" ++ "body")))),
          body := "bodz", json := { challenge := none, event := none } } = .ok false :=
  mutated_body_rejected_of_digest_ne "hub-secret" "m1" "t1" "body" "bodz"
    { challenge := none, event := none } (by decide)

end GiftSub
